import Mathlib

/-!
Verification of the `catalyser` constrained-value library.

Shallow embedding of the core types of the repository:
* `OutOfBoundsError`, `StringContentError`, `SequenceContentError`
  (the error taxonomy, `serdex/error` and `stdx/error`),
* the bounded integer family generated by `generate_bounded_num`
  (`stdx/primitive_number.rs`), modelled over `Int` (machine-integer
  comparisons in the source never overflow, so `Int` is exact),
* the bounded float family generated by `generate_bounded_float`,
  modelled with an explicit NaN value and IEEE comparison semantics,
* `ValidatedString` with the `NonEmptyValidator` / `NonBlankValidator`
  (`serdex/string.rs`), strings as Lean `String`, Rust `str::trim`
  modelled over the Unicode `White_Space` set,
* `NonEmptyCollection` (`serdex/collection.rs`), containers modelled by
  their iteration sequence as a `List`,
* the serde layer: transparent serialization and validating
  deserialization, with `D::Error::custom` carrying the Display message
  of the validation error.
-/

namespace Catalyser

/-- Rust `OutOfBoundsError<T>` from `serdex/error/out_of_bound.rs`:
`High(min, max, value)` / `Low(min, max, value)`. -/
inductive OutOfBoundsError (T : Type) where
  | High (min max value : T)
  | Low (min max value : T)
deriving DecidableEq, Repr

/-- Rust `StringContentError` from `stdx/error/is_empty_or_blank_string.rs`:
`Empty`, `Blank(original)`. -/
inductive StringContentError where
  | Empty
  | Blank (value : String)
deriving DecidableEq, Repr

/-- Rust `SequenceContentError` from `stdx/error/is_empty_sequence.rs`: `Empty`. -/
inductive SequenceContentError where
  | Empty
deriving DecidableEq, Repr

/-- A bounded integer `$name<MIN, MAX>($type_name)` generated by
`generate_bounded_num` in `stdx/primitive_number.rs`; the underlying
machine integer is modelled as `Int`. -/
structure BoundedNum (MIN MAX : Int) where
  val : Int
deriving DecidableEq, Repr

namespace BoundedNum

/-- Function `new` from `generate_bounded_num` (primitive_number.rs lines 96-104):
`if MIN > num { Err(Low(MIN, MAX, num)) } else if num > MAX
{ Err(High(MIN, MAX, num)) } else { Ok(Self(num)) }`. -/
def new (MIN MAX : Int) (num : Int) :
    Except (OutOfBoundsError Int) (BoundedNum MIN MAX) :=
  if MIN > num then .error (.Low MIN MAX num)
  else if num > MAX then .error (.High MIN MAX num)
  else .ok ⟨num⟩

/-- Function `new_unchecked` (primitive_number.rs lines 123-125): `Self(num)`. -/
def new_unchecked (MIN MAX : Int) (num : Int) : BoundedNum MIN MAX :=
  ⟨num⟩

/-- Function `into_inner` (primitive_number.rs lines 129-131): `self.0`. -/
def into_inner {MIN MAX : Int} (self : BoundedNum MIN MAX) : Int :=
  self.val

end BoundedNum

/-- A value of a machine floating-point type (`f32`/`f64`): either NaN or a
finite value, modelled as a rational (every finite IEEE float is rational).
Infinities do not occur in the claims and are omitted. -/
inductive FloatVal where
  | nan
  | fin (q : ℚ)
deriving DecidableEq

/-- IEEE `>` on floats: any comparison involving NaN is `false`; on finite
values it is the numeric order. Models Rust's `PartialOrd` `>` for
`f32`/`f64` as used by `generate_bounded_float`. -/
def fgt : FloatVal → FloatVal → Bool
  | .fin a, .fin b => a > b
  | _, _ => false

/-- IEEE `<=` on floats: any comparison involving NaN is `false`; on finite
values it is the numeric order. -/
def fle : FloatVal → FloatVal → Bool
  | .fin a, .fin b => a ≤ b
  | _, _ => false

/-- A bounded float `$name($type_name)` generated by
`generate_bounded_float` in `stdx/primitive_number.rs`, with its
associated constants `MIN`/`MAX` as parameters. -/
structure BoundedFloat (MIN MAX : FloatVal) where
  val : FloatVal
deriving DecidableEq

namespace BoundedFloat

/-- Function `new` from `generate_bounded_float` (primitive_number.rs lines
234-242): `if Self::MIN > num { Err(Low) } else if num > Self::MAX
{ Err(High) } else { Ok(Self(num)) }` with IEEE comparisons. -/
def new (MIN MAX : FloatVal) (num : FloatVal) :
    Except (OutOfBoundsError FloatVal) (BoundedFloat MIN MAX) :=
  if fgt MIN num then .error (.Low MIN MAX num)
  else if fgt num MAX then .error (.High MIN MAX num)
  else .ok ⟨num⟩

/-- Function `new_unchecked` from `generate_bounded_float` (lines 261-263). -/
def new_unchecked (MIN MAX : FloatVal) (num : FloatVal) :
    BoundedFloat MIN MAX :=
  ⟨num⟩

/-- Function `into_inner` from `generate_bounded_float` (lines 267-269). -/
def into_inner {MIN MAX : FloatVal} (self : BoundedFloat MIN MAX) :
    FloatVal :=
  self.val

end BoundedFloat

/-- Rust `char::is_whitespace`: membership in the Unicode `White_Space`
set, used by `str::trim`. -/
def rustIsWhitespace (c : Char) : Bool :=
  c.toNat = 0x09 || c.toNat = 0x0A || c.toNat = 0x0B || c.toNat = 0x0C ||
  c.toNat = 0x0D || c.toNat = 0x20 || c.toNat = 0x85 || c.toNat = 0xA0 ||
  c.toNat = 0x1680 || (0x2000 ≤ c.toNat && c.toNat ≤ 0x200A) ||
  c.toNat = 0x2028 || c.toNat = 0x2029 || c.toNat = 0x202F ||
  c.toNat = 0x205F || c.toNat = 0x3000

/-- Rust `str::is_empty`: the string has no content. -/
def rustIsEmpty (s : String) : Bool :=
  s.data.isEmpty

/-- Rust `str::trim`: remove leading and trailing `White_Space`
characters. -/
def rustTrim (s : String) : String :=
  ⟨((s.data.dropWhile rustIsWhitespace).reverse.dropWhile
      rustIsWhitespace).reverse⟩

/-- The two `StringContentValidator` implementations of
`serdex/string.rs`: `NonEmptyValidator` and `NonBlankValidator`
(zero-sized marker types, modelled as an enumeration of the markers). -/
inductive ValidatorKind where
  | NonEmptyValidator
  | NonBlankValidator
deriving DecidableEq

/-- Rust `ValidatedString<T>(String, PhantomData<T>)` from `serdex/string.rs`:
a string tagged with its validator. -/
structure ValidatedString (V : ValidatorKind) where
  inner : String
deriving DecidableEq

/-- Method `StringContentValidator::validate_and_create` for the two standard
validators (serdex/string.rs lines 157-162 and 179-184):
`NonEmptyValidator` rejects with `Empty` when `input.is_empty()`;
`NonBlankValidator` rejects with `Blank(input)` when
`input.trim().is_empty()`; both otherwise wrap `input` unchanged. -/
def validate_and_create (V : ValidatorKind) (input : String) :
    Except StringContentError (ValidatedString V) :=
  match V with
  | .NonEmptyValidator =>
    if rustIsEmpty input then .error .Empty
    else .ok ⟨input⟩
  | .NonBlankValidator =>
    if rustIsEmpty (rustTrim input) then .error (.Blank input)
    else .ok ⟨input⟩

namespace ValidatedString

/-- Method `ValidatedString::new` (serdex/string.rs lines 103-105):
`T::validate_and_create(string)`. -/
def new (V : ValidatorKind) (string : String) :
    Except StringContentError (ValidatedString V) :=
  validate_and_create V string

/-- Method `ValidatedString::new_unchecked` (serdex/string.rs lines 117-119):
`Self(string, PhantomData)`. -/
def new_unchecked (V : ValidatorKind) (string : String) :
    ValidatedString V :=
  ⟨string⟩

/-- Method `ValidatedString::into_inner` (serdex/string.rs lines 122-124). -/
def into_inner {V : ValidatorKind} (self : ValidatedString V) : String :=
  self.inner

/-- Impl `Display for ValidatedString` (serdex/string.rs lines 127-131):
delegates to the inner string, rendering it verbatim. -/
def display {V : ValidatorKind} (self : ValidatedString V) : String :=
  self.inner

end ValidatedString

/-- Rust `NonEmptyCollection<T, C>(C)` from `serdex/collection.rs`: the wrapped
container, modelled by its iteration sequence (for maps, the sequence of
key/value pairs). -/
structure NonEmptyCollection (α : Type) where
  inner : List α
deriving DecidableEq

namespace NonEmptyCollection

/-- Method `NonEmptyCollection::new` (serdex/collection.rs lines 57-63):
`if collection.clone().into_iter().next().is_none() { Err(Empty) }
else { Ok(Self(collection)) }`. -/
def new {α : Type} (collection : List α) :
    Except SequenceContentError (NonEmptyCollection α) :=
  if collection.head?.isNone then .error .Empty
  else .ok ⟨collection⟩

/-- Method `NonEmptyCollection::new_unchecked` (serdex/collection.rs lines
78-80). -/
def new_unchecked {α : Type} (collection : List α) :
    NonEmptyCollection α :=
  ⟨collection⟩

/-- Method `NonEmptyCollection::into_inner` (serdex/collection.rs lines
83-85). -/
def into_inner {α : Type} (self : NonEmptyCollection α) : List α :=
  self.inner

end NonEmptyCollection

/-- Impl `Display for OutOfBoundsError` (serdex/error/out_of_bound.rs lines
36-47): `"{value} is too high (range: {min}..{max})"` /
`"{value} is too low (range: {min}..{max})"`, with the payloads rendered
by the inner type's Display (for machine integers, decimal as given by
`toString` on `Int`). -/
def OutOfBoundsError.display (e : OutOfBoundsError Int) : String :=
  match e with
  | .High min max value =>
    toString value ++ " is too high (range: " ++ toString min ++ ".." ++
      toString max ++ ")"
  | .Low min max value =>
    toString value ++ " is too low (range: " ++ toString min ++ ".." ++
      toString max ++ ")"

/-- Impl `Display for StringContentError`
(stdx/error/is_empty_or_blank_string.rs lines 27-38):
`"string is empty"` / `"string is blank (content: \x60{value}\x60)"`. -/
def StringContentError.display (e : StringContentError) : String :=
  match e with
  | .Empty => "string is empty"
  | .Blank value => "string is blank (content: `" ++ value ++ "`)"

/-- Impl `Display for SequenceContentError` (stdx/error/is_empty_sequence.rs):
`"sequence is empty"`. -/
def SequenceContentError.display (e : SequenceContentError) : String :=
  match e with
  | .Empty => "sequence is empty"

/-- A deserialization-layer error as produced by serde's
`D::Error::custom(err)`: a custom error carrying the Display message of
the value it was built from. -/
inductive DeError where
  | custom (msg : String)
deriving DecidableEq

/-- Serialization of a bounded integer: `#[serde(transparent)]` +
`derive(Serialize)` (primitive_number.rs line 81) serialize the wrapper
exactly as its single inner field. -/
def BoundedNum.serialize {MIN MAX : Int} (self : BoundedNum MIN MAX) :
    Int :=
  self.val

/-- Impl `Deserialize` for a bounded integer (primitive_number.rs lines
135-145): deserialize the primitive (the already-parsed external
representation), run `Self::new`, and turn a validation failure into
`D::Error::custom(err)`. -/
def BoundedNum.deserialize (MIN MAX : Int) (rep : Int) :
    Except DeError (BoundedNum MIN MAX) :=
  match BoundedNum.new MIN MAX rep with
  | .ok result => .ok result
  | .error err => .error (.custom err.display)

/-- Serialization of a `ValidatedString`: `#[serde(transparent)]`
(serdex/string.rs lines 87-89) serializes the wrapper exactly as its
inner string. -/
def ValidatedString.serialize {V : ValidatorKind}
    (self : ValidatedString V) : String :=
  self.inner

/-- Impl `Deserialize for ValidatedString` (serdex/string.rs lines 133-141):
`String::deserialize` then `ValidatedString::new(string)
.map_err(Error::custom)`. -/
def ValidatedString.deserialize (V : ValidatorKind) (rep : String) :
    Except DeError (ValidatedString V) :=
  match ValidatedString.new V rep with
  | .ok result => .ok result
  | .error err => .error (.custom err.display)

/-- Serialization of a `NonEmptyCollection`: `#[serde(transparent)]`
(serdex/collection.rs lines 35-37) serializes the wrapper exactly as the
inner container. -/
def NonEmptyCollection.serialize {α : Type}
    (self : NonEmptyCollection α) : List α :=
  self.inner

/-- Impl `Deserialize for NonEmptyCollection` (serdex/collection.rs lines
88-102): `C::deserialize` then `Self::new`, turning a validation failure
into `D::Error::custom(err)`. -/
def NonEmptyCollection.deserialize {α : Type} (rep : List α) :
    Except DeError (NonEmptyCollection α) :=
  match NonEmptyCollection.new rep with
  | .ok result => .ok result
  | .error err => .error (.custom err.display)

/-- String `hay` contains `needle` as a contiguous substring. -/
def containsStr (hay needle : String) : Prop :=
  ∃ a b : List Char, hay.data = a ++ needle.data ++ b

end Catalyser

open Catalyser

/-- C1: for the integer bounded family, `MIN <= v <= MAX` implies `new v`
returns `Ok` wrapping exactly `v`; `v < MIN` yields `Err (Low MIN MAX v)`;
`v > MAX` yields `Err (High MIN MAX v)`; in particular
`BoundedI32::<-10,10>::new 11 = Err (High (-10) 10 11)` and
`new (-10)` succeeds with `into_inner = -10`. -/
theorem C1_bounded_int_range_roundtrip :
    (∀ MIN MAX v : Int, MIN ≤ v → v ≤ MAX →
      BoundedNum.new MIN MAX v = .ok ⟨v⟩ ∧
      ∀ w, BoundedNum.new MIN MAX v = .ok w → w.into_inner = v) ∧
    (∀ MIN MAX v : Int, v < MIN →
      BoundedNum.new MIN MAX v = .error (.Low MIN MAX v)) ∧
    (∀ MIN MAX v : Int, MIN ≤ v → MAX < v →
      BoundedNum.new MIN MAX v = .error (.High MIN MAX v)) ∧
    BoundedNum.new (-10) 10 11 = .error (.High (-10) 10 11) ∧
    BoundedNum.new (-10) 10 (-10) = .ok ⟨-10⟩ := by
  refine ⟨?_, ?_, ?_, by rfl, by rfl⟩
  · intro MIN MAX v h1 h2
    have : BoundedNum.new MIN MAX v = .ok ⟨v⟩ := by
      unfold BoundedNum.new
      rw [if_neg (by omega), if_neg (by omega)]
    refine ⟨this, ?_⟩
    intro w hw
    rw [this] at hw
    cases hw
    rfl
  · intro MIN MAX v h
    unfold BoundedNum.new
    rw [if_pos (by omega)]
  · intro MIN MAX v h1 h2
    unfold BoundedNum.new
    rw [if_neg (by omega), if_pos (by omega)]

/-- C1 witness: instantiation at `MIN = -10`, `MAX = 10`. -/
theorem C1_bounded_int_range_roundtrip_witness :
    BoundedNum.new (-10) 10 3 = .ok ⟨3⟩ ∧
    BoundedNum.new (-10) 10 (-11) = .error (.Low (-10) 10 (-11)) ∧
    BoundedNum.new (-10) 10 11 = .error (.High (-10) 10 11) := by
  obtain ⟨hin, hlow, hhigh, _, _⟩ := C1_bounded_int_range_roundtrip
  exact ⟨(hin (-10) 10 3 (by decide) (by decide)).1,
    hlow (-10) 10 (-11) (by decide),
    hhigh (-10) 10 11 (by decide) (by decide)⟩

/-- C10: with `MIN > MAX` every input is rejected: inputs below `MIN` get
the `Low` variant, all others get the `High` variant, so `new` never
returns `Ok`. -/
theorem C10_inverted_bounds_uninhabited :
    ∀ MIN MAX : Int, MAX < MIN →
      ∀ v : Int,
        (v < MIN → BoundedNum.new MIN MAX v = .error (.Low MIN MAX v)) ∧
        (MIN ≤ v → BoundedNum.new MIN MAX v = .error (.High MIN MAX v)) ∧
        ∀ w, BoundedNum.new MIN MAX v ≠ .ok w := by
  intro MIN MAX hinv v
  refine ⟨?_, ?_, ?_⟩
  · intro h
    unfold BoundedNum.new
    rw [if_pos (by omega)]
  · intro h
    unfold BoundedNum.new
    rw [if_neg (by omega), if_pos (by omega)]
  · intro w hw
    unfold BoundedNum.new at hw
    by_cases h : MIN > v
    · rw [if_pos h] at hw
      cases hw
    · rw [if_neg h, if_pos (by omega)] at hw
      cases hw

/-- C10 witness: `MIN = 5`, `MAX = 3` rejects `2` as low and `7` as high. -/
theorem C10_inverted_bounds_uninhabited_witness :
    BoundedNum.new 5 3 2 = .error (.Low 5 3 2) ∧
    BoundedNum.new 5 3 7 = .error (.High 5 3 7) := by
  have h := C10_inverted_bounds_uninhabited 5 3 (by decide)
  exact ⟨(h 2).1 (by decide), (h 7).2.1 (by decide)⟩

/-- Helper: a string all of whose characters are whitespace trims to the
empty string. -/
lemma rustTrim_data_eq_nil {s : String}
    (h : ∀ c ∈ s.data, rustIsWhitespace c = true) :
    (rustTrim s).data = [] := by
  unfold rustTrim
  have h1 : s.data.dropWhile rustIsWhitespace = [] :=
    List.dropWhile_eq_nil_iff.mpr h
  simp [h1]

/-- Helper: `dropWhile` keeps at least one element refuting the
predicate when the input has one. -/
lemma exists_mem_dropWhile {p : Char → Bool} {l : List Char}
    (h : ∃ c ∈ l, p c = false) :
    ∃ c ∈ l.dropWhile p, p c = false := by
  obtain ⟨c, hc, hpc⟩ := h
  have hsplit := List.takeWhile_append_dropWhile (p := p) (l := l)
  rw [← hsplit] at hc
  rcases List.mem_append.mp hc with htake | hdrop
  · exact absurd (List.mem_takeWhile_imp htake) (by simp [hpc])
  · exact ⟨c, hdrop, hpc⟩

/-- Helper: a string with a non-whitespace character does not trim to
the empty string. -/
lemma rustTrim_data_ne_nil {s : String}
    (h : ∃ c ∈ s.data, rustIsWhitespace c = false) :
    (rustTrim s).data ≠ [] := by
  unfold rustTrim
  intro hnil
  simp only [List.reverse_eq_nil_iff] at hnil
  have hall := List.dropWhile_eq_nil_iff.mp hnil
  obtain ⟨c, hc1, hc2⟩ := exists_mem_dropWhile h
  have := hall c (List.mem_reverse.mpr hc1)
  simp [hc2] at this

/-- C4: the validators decide independently: `""` is rejected by both
(`Empty` from the non-empty validator, `Blank ""` from the non-blank
one); any non-empty all-whitespace string — in particular `"   "` — is
accepted by the non-empty validator but rejected by the non-blank one
with a `Blank` payload equal to the original untrimmed text; any string
with a non-whitespace character — in particular `"a"` — is accepted by
both. -/
theorem C4_string_validator_independence :
    (ValidatedString.new .NonEmptyValidator "" = .error .Empty ∧
     ValidatedString.new .NonBlankValidator "" = .error (.Blank "")) ∧
    (∀ s : String, s.data ≠ [] →
      (∀ c ∈ s.data, rustIsWhitespace c = true) →
      ValidatedString.new .NonEmptyValidator s = .ok ⟨s⟩ ∧
      ValidatedString.new .NonBlankValidator s = .error (.Blank s)) ∧
    (ValidatedString.new .NonEmptyValidator "   " = .ok ⟨"   "⟩ ∧
     ValidatedString.new .NonBlankValidator "   " = .error (.Blank "   ")) ∧
    (∀ s : String, (∃ c ∈ s.data, rustIsWhitespace c = false) →
      ValidatedString.new .NonEmptyValidator s = .ok ⟨s⟩ ∧
      ValidatedString.new .NonBlankValidator s = .ok ⟨s⟩) ∧
    (ValidatedString.new .NonEmptyValidator "a" = .ok ⟨"a"⟩ ∧
     ValidatedString.new .NonBlankValidator "a" = .ok ⟨"a"⟩) := by
  refine ⟨⟨rfl, rfl⟩, ?_, ⟨rfl, rfl⟩, ?_, ⟨rfl, rfl⟩⟩
  · intro s hne hall
    have hemp : rustIsEmpty s = false := by
      unfold rustIsEmpty
      simp [hne]
    have hblank : rustIsEmpty (rustTrim s) = true := by
      unfold rustIsEmpty
      simp [rustTrim_data_eq_nil hall]
    constructor
    · unfold ValidatedString.new validate_and_create
      simp [hemp]
    · unfold ValidatedString.new validate_and_create
      simp [hblank]
  · intro s hex
    have hne : s.data ≠ [] := by
      obtain ⟨c, hc, _⟩ := hex
      intro hnil
      rw [hnil] at hc
      cases hc
    have hemp : rustIsEmpty s = false := by
      unfold rustIsEmpty
      simp [hne]
    have hblank : rustIsEmpty (rustTrim s) = false := by
      unfold rustIsEmpty
      simp [rustTrim_data_ne_nil hex]
    constructor
    · unfold ValidatedString.new validate_and_create
      simp [hemp]
    · unfold ValidatedString.new validate_and_create
      simp [hblank]

/-- C4 witness: instantiation of the quantified parts at `" "` (all
whitespace) and `"x"` (has a non-whitespace character). -/
theorem C4_string_validator_independence_witness :
    (ValidatedString.new .NonEmptyValidator " " = .ok ⟨" "⟩ ∧
     ValidatedString.new .NonBlankValidator " " = .error (.Blank " ")) ∧
    (ValidatedString.new .NonEmptyValidator "x" = .ok ⟨"x"⟩ ∧
     ValidatedString.new .NonBlankValidator "x" = .ok ⟨"x"⟩) := by
  obtain ⟨_, hws, _, hnws, _⟩ := C4_string_validator_independence
  exact ⟨hws " " (by decide) (by decide), hnws "x" (by decide)⟩

/-- C5: `NonEmptyCollection::new` fails with `Empty` exactly when the
container's iteration yields no element; on success the wrapper holds
the container as-is, so `into_inner` returns the input unchanged; any
singleton container is accepted. -/
theorem C5_nonempty_collection_new :
    ∀ (α : Type),
      (∀ c : List α,
        (NonEmptyCollection.new c = .error .Empty ↔ c = []) ∧
        (∀ w, NonEmptyCollection.new c = .ok w → w.into_inner = c)) ∧
      (∀ a : α, NonEmptyCollection.new [a] = .ok ⟨[a]⟩) := by
  intro α
  constructor
  · intro c
    cases c with
    | nil =>
      constructor
      · constructor
        · intro _; rfl
        · intro _; rfl
      · intro w hw
        cases hw
    | cons x xs =>
      constructor
      · constructor
        · intro h
          cases h
        · intro h
          cases h
      · intro w hw
        cases hw
        rfl
  · intro a
    rfl

/-- C5 witness: the empty list is rejected, a singleton is accepted and
`into_inner` returns the wrapped list unchanged. -/
theorem C5_nonempty_collection_new_witness :
    NonEmptyCollection.new ([] : List Nat) = .error .Empty ∧
    NonEmptyCollection.new [1] = .ok ⟨[1]⟩ ∧
    (⟨[1]⟩ : NonEmptyCollection Nat).into_inner = [1] := by
  obtain ⟨hgen, hsing⟩ := C5_nonempty_collection_new Nat
  exact ⟨(hgen []).1.mpr rfl, hsing 1,
    (hgen [1]).2 ⟨[1]⟩ (hsing 1)⟩

/-- C6: for every family, `new_unchecked` is total (it is a plain Lean
function, so it cannot fail or panic) and wraps the raw input unchanged:
`into_inner` returns exactly the value passed in, valid or not. -/
theorem C6_new_unchecked_identity :
    (∀ MIN MAX v : Int,
      (BoundedNum.new_unchecked MIN MAX v).into_inner = v) ∧
    (∀ MIN MAX v : FloatVal,
      (BoundedFloat.new_unchecked MIN MAX v).into_inner = v) ∧
    (∀ (V : ValidatorKind) (s : String),
      (ValidatedString.new_unchecked V s).into_inner = s) ∧
    (∀ (α : Type) (c : List α),
      (NonEmptyCollection.new_unchecked c).into_inner = c) := by
  exact ⟨fun _ _ _ => rfl, fun _ _ _ => rfl, fun _ _ => rfl,
    fun _ _ => rfl⟩

/-- C7: for either standard validator, a successful `ValidatedString.new`
wraps the original text unmodified: `into_inner` returns exactly the
input and `Display` renders it verbatim. -/
theorem C7_validated_string_untransformed :
    ∀ (V : ValidatorKind) (s : String) (w : ValidatedString V),
      ValidatedString.new V s = .ok w →
      w.into_inner = s ∧ w.display = s := by
  intro V s w h
  unfold ValidatedString.new validate_and_create at h
  cases V <;> dsimp at h <;> split at h
  · cases h
  · cases h
    exact ⟨rfl, rfl⟩
  · cases h
  · cases h
    exact ⟨rfl, rfl⟩

/-- C7 witness: instantiation at the non-blank validator and `" hi "`,
which is accepted and kept untrimmed. -/
theorem C7_validated_string_untransformed_witness :
    (⟨" hi "⟩ : ValidatedString .NonBlankValidator).into_inner =
      " hi " ∧
    (⟨" hi "⟩ : ValidatedString .NonBlankValidator).display = " hi " :=
  C7_validated_string_untransformed .NonBlankValidator " hi " ⟨" hi "⟩
    (by rfl)

/-- C9: the bounded-float constructor accepts NaN: both IEEE comparisons
`MIN > NaN` and `NaN > MAX` are false, so `new NaN` takes the success
branch and returns `Ok` wrapping NaN, although NaN satisfies neither
`MIN <= NaN` nor `NaN <= MAX`. -/
theorem C9_bounded_float_accepts_nan :
    ∀ MIN MAX : FloatVal,
      fgt MIN .nan = false ∧
      fgt FloatVal.nan MAX = false ∧
      BoundedFloat.new MIN MAX .nan = .ok ⟨.nan⟩ ∧
      fle MIN .nan = false ∧
      fle FloatVal.nan MAX = false := by
  intro MIN MAX
  refine ⟨?_, ?_, ?_, ?_, ?_⟩ <;> cases MIN <;> cases MAX <;> rfl

/-- C2: serialization is transparent — the wrapper serializes to exactly
the inner value `into_inner` would return, with no extra structure — and
for every valid instance of each family, deserializing the serialized
form yields the instance back unchanged. -/
theorem C2_serialization_symmetry :
    (∀ (MIN MAX : Int) (w : BoundedNum MIN MAX),
      w.serialize = w.into_inner ∧
      (MIN ≤ w.val → w.val ≤ MAX →
        BoundedNum.deserialize MIN MAX w.serialize = .ok w)) ∧
    (∀ (V : ValidatorKind) (w : ValidatedString V),
      w.serialize = w.into_inner ∧
      ((ValidatedString.new V w.inner).isOk = true →
        ValidatedString.deserialize V w.serialize = .ok w)) ∧
    (∀ (α : Type) (w : NonEmptyCollection α),
      w.serialize = w.into_inner ∧
      (w.inner ≠ [] →
        NonEmptyCollection.deserialize w.serialize = .ok w)) := by
  refine ⟨?_, ?_, ?_⟩
  · intro MIN MAX w
    refine ⟨rfl, ?_⟩
    intro h1 h2
    have hnew : BoundedNum.new MIN MAX w.val = .ok ⟨w.val⟩ := by
      unfold BoundedNum.new
      rw [if_neg (by omega), if_neg (by omega)]
    unfold BoundedNum.deserialize BoundedNum.serialize
    rw [hnew]
  · intro V w
    refine ⟨rfl, ?_⟩
    intro h
    have hnew : ValidatedString.new V w.inner = .ok ⟨w.inner⟩ := by
      unfold ValidatedString.new validate_and_create
      unfold ValidatedString.new validate_and_create at h
      cases V <;> dsimp at h ⊢ <;> split at h
      · cases h
      · rename_i hcond
        rw [if_neg hcond]
      · cases h
      · rename_i hcond
        rw [if_neg hcond]
    unfold ValidatedString.deserialize ValidatedString.serialize
    rw [hnew]
  · intro α w
    refine ⟨rfl, ?_⟩
    intro h
    have hnew : NonEmptyCollection.new w.inner = .ok ⟨w.inner⟩ := by
      unfold NonEmptyCollection.new
      cases hc : w.inner with
      | nil => exact absurd hc h
      | cons x xs => rfl
    unfold NonEmptyCollection.deserialize NonEmptyCollection.serialize
    rw [hnew]

/-- C2 witness: round trips at a concrete valid instance of each
family. -/
theorem C2_serialization_symmetry_witness :
    BoundedNum.deserialize 0 10 (BoundedNum.serialize
      (⟨5⟩ : BoundedNum 0 10)) = .ok ⟨5⟩ ∧
    ValidatedString.deserialize .NonEmptyValidator
      (ValidatedString.serialize
        (⟨"hi"⟩ : ValidatedString .NonEmptyValidator)) = .ok ⟨"hi"⟩ ∧
    NonEmptyCollection.deserialize (NonEmptyCollection.serialize
      (⟨[1]⟩ : NonEmptyCollection Nat)) = .ok ⟨[1]⟩ := by
  obtain ⟨hnum, hstr, hcoll⟩ := C2_serialization_symmetry
  exact ⟨(hnum 0 10 ⟨5⟩).2 (by decide) (by decide),
    (hstr .NonEmptyValidator ⟨"hi"⟩).2 (by rfl),
    (hcoll Nat ⟨[1]⟩).2 (by decide)⟩

/-- C3: for every family, deserialization succeeds exactly when the
validating constructor `new` accepts the parsed inner value; a success
returns the value `new` built, and a validation failure aborts the
deserialization with a custom error carrying the very Display message of
the validation error direct construction would have produced. -/
theorem C3_deserialize_shares_validation_gate :
    (∀ (MIN MAX rep : Int),
      (BoundedNum.deserialize MIN MAX rep).isOk =
        (BoundedNum.new MIN MAX rep).isOk ∧
      (∀ w, BoundedNum.new MIN MAX rep = .ok w →
        BoundedNum.deserialize MIN MAX rep = .ok w) ∧
      (∀ e, BoundedNum.new MIN MAX rep = .error e →
        BoundedNum.deserialize MIN MAX rep =
          .error (.custom e.display))) ∧
    (∀ (V : ValidatorKind) (rep : String),
      (ValidatedString.deserialize V rep).isOk =
        (ValidatedString.new V rep).isOk ∧
      (∀ w, ValidatedString.new V rep = .ok w →
        ValidatedString.deserialize V rep = .ok w) ∧
      (∀ e, ValidatedString.new V rep = .error e →
        ValidatedString.deserialize V rep =
          .error (.custom e.display))) ∧
    (∀ (α : Type) (rep : List α),
      (NonEmptyCollection.deserialize rep).isOk =
        (NonEmptyCollection.new rep).isOk ∧
      (∀ w, NonEmptyCollection.new rep = .ok w →
        NonEmptyCollection.deserialize rep = .ok w) ∧
      (∀ e, NonEmptyCollection.new rep = .error e →
        NonEmptyCollection.deserialize rep =
          .error (.custom e.display))) := by
  refine ⟨?_, ?_, ?_⟩
  · intro MIN MAX rep
    unfold BoundedNum.deserialize
    cases hnew : BoundedNum.new MIN MAX rep with
    | ok w =>
      refine ⟨rfl, ?_, ?_⟩
      · intro w' hw'
        cases hw'
        rfl
      · intro e he
        cases he
    | error e =>
      refine ⟨rfl, ?_, ?_⟩
      · intro w' hw'
        cases hw'
      · intro e' he'
        cases he'
        rfl
  · intro V rep
    unfold ValidatedString.deserialize
    cases hnew : ValidatedString.new V rep with
    | ok w =>
      refine ⟨rfl, ?_, ?_⟩
      · intro w' hw'
        cases hw'
        rfl
      · intro e he
        cases he
    | error e =>
      refine ⟨rfl, ?_, ?_⟩
      · intro w' hw'
        cases hw'
      · intro e' he'
        cases he'
        rfl
  · intro α rep
    unfold NonEmptyCollection.deserialize
    cases hnew : NonEmptyCollection.new rep with
    | ok w =>
      refine ⟨rfl, ?_, ?_⟩
      · intro w' hw'
        cases hw'
        rfl
      · intro e he
        cases he
    | error e =>
      refine ⟨rfl, ?_, ?_⟩
      · intro w' hw'
        cases hw'
      · intro e' he'
        cases he'
        rfl

/-- C3 witness: a failing deserialization at a concrete out-of-range
number, an empty string and an empty list carries the validation error's
own message. -/
theorem C3_deserialize_shares_validation_gate_witness :
    BoundedNum.deserialize 0 10 11 =
      .error (.custom (OutOfBoundsError.display (.High 0 10 11))) ∧
    ValidatedString.deserialize .NonEmptyValidator "" =
      .error (.custom StringContentError.Empty.display) ∧
    NonEmptyCollection.deserialize ([] : List Nat) =
      .error (.custom SequenceContentError.Empty.display) := by
  obtain ⟨hnum, hstr, hcoll⟩ := C3_deserialize_shares_validation_gate
  exact ⟨(hnum 0 10 11).2.2 (.High 0 10 11) (by rfl),
    (hstr .NonEmptyValidator "").2.2 .Empty (by rfl),
    (hcoll Nat []).2.2 .Empty (by rfl)⟩

/-- C8: every validation error has a machine-distinguishable kind
(distinct constructors), and the human-readable Display message always
contains the offending value — for the range errors `Low`/`High`
together with both configured bounds, and for `Blank` the original
offending text. -/
theorem C8_error_display_reports_value_and_bounds :
    (∀ min max value : Int,
      containsStr (OutOfBoundsError.display (.Low min max value))
        (toString value) ∧
      containsStr (OutOfBoundsError.display (.Low min max value))
        (toString min) ∧
      containsStr (OutOfBoundsError.display (.Low min max value))
        (toString max) ∧
      containsStr (OutOfBoundsError.display (.High min max value))
        (toString value) ∧
      containsStr (OutOfBoundsError.display (.High min max value))
        (toString min) ∧
      containsStr (OutOfBoundsError.display (.High min max value))
        (toString max)) ∧
    (∀ s : String,
      containsStr (StringContentError.display (.Blank s)) s) ∧
    (∀ a b c d e f : Int,
      OutOfBoundsError.Low a b c ≠ OutOfBoundsError.High d e f) ∧
    (∀ s : String,
      StringContentError.Empty ≠ StringContentError.Blank s) := by
  refine ⟨?_, ?_, ?_, ?_⟩
  · intro min max value
    unfold OutOfBoundsError.display containsStr
    refine ⟨⟨[], (" is too low (range: " ++ toString min ++ ".." ++
        toString max ++ ")").data, ?_⟩,
      ⟨(toString value ++ " is too low (range: ").data,
        (".." ++ toString max ++ ")").data, ?_⟩,
      ⟨(toString value ++ " is too low (range: " ++ toString min ++
        "..").data, (")" : String).data, ?_⟩,
      ⟨[], (" is too high (range: " ++ toString min ++ ".." ++
        toString max ++ ")").data, ?_⟩,
      ⟨(toString value ++ " is too high (range: ").data,
        (".." ++ toString max ++ ")").data, ?_⟩,
      ⟨(toString value ++ " is too high (range: " ++ toString min ++
        "..").data, (")" : String).data, ?_⟩⟩ <;>
      simp [String.data_append]
  · intro s
    unfold StringContentError.display containsStr
    exact ⟨("string is blank (content: `" : String).data,
      ("`)" : String).data, by simp [String.data_append]⟩
  · intro a b c d e f h
    cases h
  · intro s h
    cases h

/-- C8 witness: concrete instantiation at the range `[0, 10]` with
offending value `11` and the blank text `" "`. -/
theorem C8_error_display_reports_value_and_bounds_witness :
    containsStr (OutOfBoundsError.display (.High 0 10 11))
      (toString (11 : Int)) ∧
    containsStr (StringContentError.display (.Blank " ")) " " ∧
    OutOfBoundsError.Low (0 : Int) 10 11 ≠
      OutOfBoundsError.High 0 10 11 := by
  obtain ⟨hnum, hblank, hlh, _⟩ :=
    C8_error_display_reports_value_and_bounds
  exact ⟨(hnum 0 10 11).2.2.2.1, hblank " ", hlh 0 10 11 0 10 11⟩
